import Mathlib

/-!
Shallow embedding of the nova-spark telemetry agent core
(src/core/Agent.ts, src/core/Config.ts, src/streaming/MetricsStream.ts,
src/collectors/EventLoopCollector.ts, dist/collectors/MemoryCollector.js,
and the CpuCollector class staged in src/index.ts), with theorems
checking the natural-language specification against it.

JS conventions used throughout:
- a thrown `Error` is modelled by `Err` (its message);
- a method that can throw after having mutated state returns
  `Option Err × State` (resp. `Except Err α × State` when it also produces
  a value);
- event emission is modelled by returning the list of events the call
  emits, in emission order;
- a JS `Map` iterated with `.values()` preserves insertion order, so the
  Agent's collector registry is a `List (String × C)` in registration
  order.
-/

namespace NovaSpark

/-- A JavaScript `Error`, identified by its message. -/
structure Err where
  message : String
  deriving Repr, DecidableEq

/-- A Metric value object (the shape produced by collectors, from the
Collector contract). The numeric payload is modelled as `Int`. -/
structure Metric where
  name : String
  value : Int
  timestamp : Nat
  type : String
  deriving Repr, DecidableEq

/-- The `SparkConfig` options object (src/core/Config.ts): all fields optional. -/
structure SparkConfig where
  sampleInterval : Option Int := none
  enabled : Option Bool := none
  maxMemorySnapshots : Option Int := none
  cpuProfilingDuration : Option Int := none
  eventLoopThreshold : Option Int := none
  metricsBufferSize : Option Int := none
  debugMode : Option Bool := none
  deriving Repr, DecidableEq

/-- The frozen `Config` object (src/core/Config.ts, constructor lines
154-168): every field filled in with its default when absent. -/
structure Config where
  sampleInterval : Int
  enabled : Bool
  maxMemorySnapshots : Int
  cpuProfilingDuration : Int
  eventLoopThreshold : Int
  metricsBufferSize : Int
  debugMode : Bool
  deriving Repr, DecidableEq

/-- Embedding of `Config.validateConfig` (src/core/Config.ts lines 178-194): returns the
first validation error, if any. Note that `enabled` and `debugMode` are not
validated. -/
def Config.validateConfig (c : Config) : Option Err :=
  if c.sampleInterval ≤ 0 then some { message := "sampleInterval must be greater than 0" }
  else if c.maxMemorySnapshots ≤ 0 then some { message := "maxMemorySnapshots must be greater than 0" }
  else if c.cpuProfilingDuration ≤ 0 then some { message := "cpuProfilingDuration must be greater than 0" }
  else if c.eventLoopThreshold ≤ 0 then some { message := "eventLoopThreshold must be greater than 0" }
  else if c.metricsBufferSize ≤ 0 then some { message := "metricsBufferSize must be greater than 0" }
  else none

/-- The default-filling part of the `Config` constructor
(src/core/Config.ts lines 155-161). -/
def Config.ofSpark (sc : SparkConfig) : Config :=
  { sampleInterval := sc.sampleInterval.getD 5000
    enabled := sc.enabled.getD true
    maxMemorySnapshots := sc.maxMemorySnapshots.getD 10
    cpuProfilingDuration := sc.cpuProfilingDuration.getD 500
    eventLoopThreshold := sc.eventLoopThreshold.getD 100
    metricsBufferSize := sc.metricsBufferSize.getD 1000
    debugMode := sc.debugMode.getD false }

/-- The `Config` constructor (src/core/Config.ts lines 154-168): apply
defaults, freeze, then validate; construction throws on invalid values. -/
def Config.make (sc : SparkConfig) : Except Err Config :=
  match (Config.ofSpark sc).validateConfig with
  | some e => .error e
  | none => .ok (Config.ofSpark sc)

/-- The Collector capability consumed by the Agent (start/stop/collect).
`C` is the collector's private state. `start` and `stop` may throw
(`Option Err`) after possibly mutating state; `collect` either returns a
list of metrics or throws, again with a post-state. -/
structure CollectorOps (C : Type) where
  start : C → Option Err × C
  stop : C → Option Err × C
  collect : C → Except Err (List Metric) × C

/-- The Agent's mutable state (src/core/Agent.ts lines 32-58):
a registry of named collectors in registration order, the `isRunning`
flag, the optional collection timer (`some interval` when armed), and the
frozen config. -/
structure AgentState (C : Type) where
  collectors : List (String × C)
  isRunning : Bool
  collectionInterval : Option Int
  config : Config
  deriving Repr, DecidableEq

/-- Events an Agent emits (src/core/Agent.ts lines 200 and 214). -/
inductive AgentEvent
  | metrics (batch : List Metric)
  | error (e : Err)
  deriving Repr, DecidableEq

/-- Embedding of `Agent.registerCollector` (src/core/Agent.ts lines 73-78). -/
def registerCollector {C : Type} (a : AgentState C) (name : String) (c : C) :
    Except Err (AgentState C) :=
  if (a.collectors.map Prod.fst).contains name then
    .error { message := "Collector already exists" }
  else
    .ok { a with collectors := a.collectors ++ [(name, c)] }

/-- The sequential `for (const collector of this.collectors.values())
await collector.start()` loop in `Agent.start` (lines 106-108): starts
collectors in registration order, aborting at the first failure.
Collectors before the failure keep their started state (no rollback);
collectors after it are never reached. -/
def startCollectors {C : Type} (ops : CollectorOps C) :
    List (String × C) → List (String × C) × Option Err
  | [] => ([], none)
  | (n, c) :: rest =>
    match ops.start c with
    | (none, c2) =>
      let r := startCollectors ops rest
      ((n, c2) :: r.1, r.2)
    | (some e, c2) => ((n, c2) :: rest, some e)

/-- Embedding of `Agent.start` (src/core/Agent.ts lines 101-121): no-op when already
running; otherwise starts every collector sequentially, and on full
success sets `isRunning` and arms the interval timer at
`config.sampleInterval`. On any failure, `isRunning` is set to false, the
timer is never armed, and a fresh `Error('Start failed')` is thrown —
the triggering collector error is discarded by the `catch` block. -/
def agentStart {C : Type} (ops : CollectorOps C) (a : AgentState C) :
    AgentState C × Option Err :=
  if a.isRunning then (a, none)
  else
    let r := startCollectors ops a.collectors
    match r.2 with
    | none =>
      ({ a with collectors := r.1, isRunning := true,
                collectionInterval := some a.config.sampleInterval }, none)
    | some _ =>
      ({ a with collectors := r.1, isRunning := false }, some { message := "Start failed" })

/-- The sequential stop loop in `Agent.stop` (lines 154-156): same shape
as `startCollectors`, aborting at the first failure. -/
def stopCollectors {C : Type} (ops : CollectorOps C) :
    List (String × C) → List (String × C) × Option Err
  | [] => ([], none)
  | (n, c) :: rest =>
    match ops.stop c with
    | (none, c2) =>
      let r := stopCollectors ops rest
      ((n, c2) :: r.1, r.2)
    | (some e, c2) => ((n, c2) :: rest, some e)

/-- Embedding of `Agent.stop` (src/core/Agent.ts lines 144-163): no-op when not
running; otherwise clears the interval first, then stops collectors in
registration order. Only after the whole loop succeeds is `isRunning` set
to false; if some collector's stop throws, the `catch` block throws a
fresh `Error('Stop failed')` and `isRunning` is left true. -/
def agentStop {C : Type} (ops : CollectorOps C) (a : AgentState C) :
    AgentState C × Option Err :=
  if !a.isRunning then (a, none)
  else
    let r := stopCollectors ops a.collectors
    match r.2 with
    | none =>
      ({ a with collectors := r.1, isRunning := false, collectionInterval := none }, none)
    | some _ =>
      ({ a with collectors := r.1, collectionInterval := none }, some { message := "Stop failed" })

/-- The collect loop in `Agent.collect` (lines 179-184): iterate
collectors in registration order, concatenating each one's metrics; the
first failure abandons the loop with that error. Each collector's
post-state is kept; collectors after the failure are untouched. -/
def collectCollectors {C : Type} (ops : CollectorOps C) :
    List (String × C) → Except Err (List Metric) × List (String × C)
  | [] => (.ok [], [])
  | (n, c) :: rest =>
    match ops.collect c with
    | (.ok ms, c2) =>
      match collectCollectors ops rest with
      | (.ok more, rest2) => (.ok (ms ++ more), (n, c2) :: rest2)
      | (.error e, rest2) => (.error e, (n, c2) :: rest2)
    | (.error e, c2) => (.error e, (n, c2) :: rest)

/-- Embedding of `Agent.collect` (src/core/Agent.ts lines 177-216): gather from all
collectors and emit one `metrics` event with the combined batch; if the
loop threw, emit one `error` event with the caught error instead. The
running flag and the timer are not touched either way. -/
def agentCollect {C : Type} (ops : CollectorOps C) (a : AgentState C) :
    AgentState C × List AgentEvent :=
  let r := collectCollectors ops a.collectors
  match r.1 with
  | .ok ms => ({ a with collectors := r.2 }, [.metrics ms])
  | .error e => ({ a with collectors := r.2 }, [.error e])

/-- One tick of the interval timer armed by `Agent.start` (line 113):
the `() => this.collect()` callback runs only while the interval is
armed; with no armed timer nothing fires. -/
def agentTick {C : Type} (ops : CollectorOps C) (a : AgentState C) :
    AgentState C × List AgentEvent :=
  match a.collectionInterval with
  | some _ => agentCollect ops a
  | none => (a, [])

/-- The `MetricsStream` state (src/streaming/MetricsStream.ts lines 27-40):
the frozen config and the pending buffer. Events are returned as the list
of `data` payloads a call emits. -/
structure MetricsStream where
  config : Config
  buffer : List Metric
  deriving Repr, DecidableEq

/-- Embedding of `MetricsStream.flush` (lines 78-91): when the buffer is non-empty,
emit one `data` event with a frozen copy of the whole buffer in insertion
order, then empty the buffer; on an empty buffer, do nothing. -/
def msFlush (s : MetricsStream) : MetricsStream × List (List Metric) :=
  if 0 < s.buffer.length then ({ s with buffer := [] }, [s.buffer])
  else (s, [])

/-- Embedding of `MetricsStream.push` (lines 61-69): append (copies of) the given
metrics in order, then flush once if the buffer length reached
`config.metricsBufferSize`. This value-level model ignores object
identity; the heap-level model below captures the copy semantics. -/
def msPush (s : MetricsStream) (metrics : List Metric) :
    MetricsStream × List (List Metric) :=
  let s1 : MetricsStream := { s with buffer := s.buffer ++ metrics }
  if s.config.metricsBufferSize ≤ (s1.buffer.length : Int) then msFlush s1
  else (s1, [])

/-- Embedding of `MetricsStream.clear` (lines 98-100): empty the buffer; nothing is
emitted. -/
def msClear (s : MetricsStream) : MetricsStream :=
  { s with buffer := [] }

/-- The `EventLoopCollector` state
(src/collectors/EventLoopCollector.ts lines 23-38): the running flag, the
last loop timestamp, and whether the 1ms check interval is set. -/
structure EventLoopCollector where
  isRunning : Bool
  lastLoopTime : Nat
  checkInterval : Bool
  deriving Repr, DecidableEq

/-- Embedding of `EventLoopCollector.start` (lines 48-58): no-op when already running;
otherwise record the current time, set the running flag and arm the check
interval. `now` stands for `Date.now()`. -/
def elcStart (now : Nat) (c : EventLoopCollector) : EventLoopCollector :=
  if c.isRunning then c
  else { isRunning := true, lastLoopTime := now, checkInterval := true }

/-- Embedding of `EventLoopCollector.stop` (lines 67-76): no-op when not running;
otherwise clear the check interval and the running flag. -/
def elcStop (c : EventLoopCollector) : EventLoopCollector :=
  if !c.isRunning then c
  else { c with checkInterval := false, isRunning := false }

/-- The `MemoryCollector` state (dist/collectors/MemoryCollector.js): the
running flag and the retained heap-usage snapshots. -/
structure MemoryCollector where
  isRunning : Bool
  snapshots : List Int
  deriving Repr, DecidableEq

/-- Embedding of `MemoryCollector.start` (dist/collectors/MemoryCollector.js): no-op
when already running; otherwise reset the snapshot history and set the
running flag. -/
def mcStart (c : MemoryCollector) : MemoryCollector :=
  if c.isRunning then c
  else { c with snapshots := [], isRunning := true }

/-- Embedding of `MemoryCollector.stop` (dist/collectors/MemoryCollector.js): no-op
when not running; otherwise clear the snapshots and the running flag. -/
def mcStop (c : MemoryCollector) : MemoryCollector :=
  if !c.isRunning then c
  else { c with snapshots := [], isRunning := false }

/-- The `CpuCollector` state (the CpuCollector class staged in
src/src/index.ts): the running flag and the nullable `lastUsage`
(`NodeJS.CpuUsage`) and `lastTimestamp` (`process.hrtime()` pair)
baselines, both abstracted to single numbers here since only
presence/absence and identity matter to the claims. -/
structure CpuCollector where
  isRunning : Bool
  lastUsage : Option Int
  lastTimestamp : Option Nat
  deriving Repr, DecidableEq

/-- Embedding of `CpuCollector.start` (the CpuCollector class staged in
src/src/index.ts): no-op when already running; otherwise records the
CPU-usage baseline and sets the running flag. `usage` stands for the
`process.cpuUsage()` sample and `now` for the `process.hrtime()`
sample. -/
def cpuStart (usage : Int) (now : Nat) (c : CpuCollector) : CpuCollector :=
  if c.isRunning then c
  else { isRunning := true, lastUsage := some usage, lastTimestamp := some now }

/-- Embedding of `CpuCollector.stop` (the CpuCollector class staged in
src/src/index.ts): no-op when not running; otherwise nulls both
baselines and clears the running flag. -/
def cpuStop (c : CpuCollector) : CpuCollector :=
  if !c.isRunning then c
  else { isRunning := false, lastUsage := none, lastTimestamp := none }

/-!
Heap-level model of `MetricsStream.push`'s copy semantics (lines 61-69).

JS objects live on a heap and are passed by reference. A metric object's
`metadata` field holds a reference to a separate plain object. The source
line

  `metrics.map(metric => Object.freeze({ ...metric }))`

spreads the metric's own top-level fields into a fresh object — copying
the `metadata` reference, not the metadata object — and freezes that new
object shallowly. The model keeps a heap of metric objects (with a frozen
flag each) and a heap of metadata objects; stream buffers and emitted
`data` events carry addresses, as JS arrays carry references.
-/

/-- A metadata object: a JS record of scalar entries, modelled as an
association list in property order. -/
abbrev MetaObj := List (String × Int)

/-- The top-level field record of a metric object; `metaRef` is the
reference stored in its `metadata` field (none when absent). -/
structure MObj where
  name : String
  value : Int
  timestamp : Nat
  type : String
  metaRef : Option Nat
  deriving Repr, DecidableEq

/-- The JS heap: metric objects (each with its `Object.isFrozen` flag)
and metadata objects, addressed by index. -/
structure Heap where
  objs : List (MObj × Bool)
  metas : List MetaObj
  deriving Repr, DecidableEq

/-- Dereference a metric object. -/
def Heap.getObj (h : Heap) (a : Nat) : Option MObj :=
  (h.objs[a]?).map Prod.fst

/-- Embedding of `Object.freeze` applied to a spread copy of the object at address `a`: allocate
a fresh object with the same top-level fields (the `metadata` reference
included) at the next address, marked frozen. The metadata object itself
is not copied and not frozen. -/
def Heap.freezeCopy (h : Heap) (a : Nat) : Heap × Option Nat :=
  match h.getObj a with
  | some o => ({ h with objs := h.objs ++ [(o, true)] }, some h.objs.length)
  | none => (h, none)

/-- The map step of push, freeze-copying
each address in order, returning the new heap and the copies'
addresses. -/
def freezeCopyAll (h : Heap) : List Nat → Heap × List Nat
  | [] => (h, [])
  | a :: rest =>
    match h.freezeCopy a with
    | (h2, some a2) =>
      let r := freezeCopyAll h2 rest
      (r.1, a2 :: r.2)
    | (h2, none) => freezeCopyAll h2 rest

/-- A top-level field write `obj.value = v` on the object at address `a`:
updates the field unless the object is frozen (a write to a frozen object
is silently ignored in sloppy-mode JS). -/
def Heap.setValue (h : Heap) (a : Nat) (v : Int) : Heap :=
  match h.objs[a]? with
  | some (o, false) => { h with objs := h.objs.set a ({ o with value := v }, false) }
  | _ => h

/-- Write one entry of a metadata record, overwriting the key when
present and appending it otherwise. -/
def MetaObj.setEntry (mo : MetaObj) (k : String) (v : Int) : MetaObj :=
  if mo.any (fun p => p.1 = k) then
    mo.map (fun p => if p.1 = k then (k, v) else p)
  else mo ++ [(k, v)]

/-- A nested write `obj.metadata[k] = v` through the object at address
`a`: follows the metadata reference and updates the metadata object.
`Object.freeze` is shallow, so this write succeeds even when the metric
object itself is frozen. -/
def Heap.setMeta (h : Heap) (a : Nat) (k : String) (v : Int) : Heap :=
  match h.getObj a with
  | some o =>
    match o.metaRef with
    | some r =>
      match h.metas[r]? with
      | some mo => { h with metas := h.metas.set r (mo.setEntry k v) }
      | none => h
    | none => h
  | none => h

/-- The value a consumer observes when reading the metric object at
address `a`: its top-level fields with the metadata dereferenced. -/
structure MetricView where
  name : String
  value : Int
  timestamp : Nat
  type : String
  metadata : Option MetaObj
  deriving Repr, DecidableEq

/-- Observe the metric object at address `a`. -/
def Heap.view (h : Heap) (a : Nat) : Option MetricView :=
  (h.getObj a).map fun o =>
    { name := o.name, value := o.value, timestamp := o.timestamp,
      type := o.type, metadata := o.metaRef.bind fun r => h.metas[r]? }

/-- The heap-level `MetricsStream` state: the configured capacity and the
buffer of object references. -/
structure StreamH where
  capacity : Int
  buffer : List Nat
  deriving Repr, DecidableEq

/-- Heap-level `MetricsStream.flush` (lines 78-91): emit the buffered
references as one `data` event (the emitted array is a fresh frozen array
of the same references) and empty the buffer. -/
def flushH (s : StreamH) : StreamH × List (List Nat) :=
  if 0 < s.buffer.length then ({ s with buffer := [] }, [s.buffer])
  else (s, [])

/-- Heap-level `MetricsStream.push` (lines 61-69): freeze-copy each given
metric object, append the copies' references to the buffer, then flush
once if the buffer reached capacity. Returns the new heap, the new
stream state, and the emitted `data` payloads. -/
def pushH (h : Heap) (s : StreamH) (metrics : List Nat) :
    Heap × StreamH × List (List Nat) :=
  let c := freezeCopyAll h metrics
  let s1 : StreamH := { s with buffer := s.buffer ++ c.2 }
  if s.capacity ≤ (s1.buffer.length : Int) then
    let f := flushH s1
    (c.1, f.1, f.2)
  else (c.1, s1, [])

/-!
Concrete fixtures: a scripted collector in the shape of the test mocks
(src/dist/core/Agent.spec.js), sample metrics, and sample states. These
feed the witness theorems and the concrete scenarios the spec's testable
properties describe.
-/

/-- A scripted collector state: an active flag, per-operation failure
switches, and the metrics `collect` returns on success. -/
structure TestCollector where
  active : Bool
  failStart : Bool
  failStop : Bool
  failCollect : Bool
  output : List Metric
  deriving Repr, DecidableEq

/-- The scripted collector's `start`: throws `boom` when told to. -/
def testStart (c : TestCollector) : Option Err × TestCollector :=
  (if c.failStart then some { message := "boom" } else none, { c with active := true })

/-- The scripted collector's `stop`: throws `stop boom` when told to. -/
def testStop (c : TestCollector) : Option Err × TestCollector :=
  (if c.failStop then some { message := "stop boom" } else none, { c with active := false })

/-- The scripted collector's `collect`: throws `Collection failed` when
told to, mirroring the failing mock in the Agent tests. -/
def testCollect (c : TestCollector) : Except Err (List Metric) × TestCollector :=
  (if c.failCollect then .error { message := "Collection failed" } else .ok c.output, c)

/-- The capability implementation of the scripted collector. -/
def testOps : CollectorOps TestCollector :=
  { start := testStart, stop := testStop, collect := testCollect }

/-- A config with `sampleInterval := 100` and the remaining defaults,
as the Agent tests construct. -/
def cfg100 : Config :=
  { sampleInterval := 100, enabled := true, maxMemorySnapshots := 10,
    cpuProfilingDuration := 500, eventLoopThreshold := 100,
    metricsBufferSize := 1000, debugMode := false }

/-- Variant of `cfg100` with `metricsBufferSize := 3`, as the stream tests use. -/
def cfgCap3 : Config := { cfg100 with metricsBufferSize := 3 }

def mA1 : Metric := { name := "a1", value := 1, timestamp := 0, type := "memory" }

def mA2 : Metric := { name := "a2", value := 2, timestamp := 0, type := "memory" }

def mB1 : Metric := { name := "b1", value := 3, timestamp := 0, type := "cpu" }

def mC1 : Metric := { name := "c1", value := 4, timestamp := 0, type := "eventloop" }

def mC2 : Metric := { name := "c2", value := 5, timestamp := 0, type := "eventloop" }

def mC3 : Metric := { name := "c3", value := 6, timestamp := 0, type := "eventloop" }

/-- A collector whose `start` throws. -/
def startFailC : TestCollector :=
  { active := false, failStart := true, failStop := false, failCollect := false, output := [] }

/-- A healthy collector returning `[mA1, mA2]`. -/
def okA : TestCollector :=
  { active := true, failStart := false, failStop := false, failCollect := false,
    output := [mA1, mA2] }

/-- A healthy collector returning `[mB1]`. -/
def okB : TestCollector := { okA with output := [mB1] }

/-- A healthy collector returning `[mC1, mC2, mC3]`. -/
def okC : TestCollector := { okA with output := [mC1, mC2, mC3] }

/-- A collector whose `collect` throws. -/
def collectFailB : TestCollector := { okA with failCollect := true, output := [] }

/-- A collector whose `stop` throws. -/
def stopFailB : TestCollector := { okA with failStop := true }

/-- A freshly constructed agent holding one start-failing collector. -/
def agentFailStart : AgentState TestCollector :=
  { collectors := [("failing", startFailC)], isRunning := false,
    collectionInterval := none, config := cfg100 }

/-- A running agent with collectors a, b, c where b's `collect` throws. -/
def agentFailCycle : AgentState TestCollector :=
  { collectors := [("a", okA), ("b", collectFailB), ("c", okC)], isRunning := true,
    collectionInterval := some 100, config := cfg100 }

/-- A running agent with healthy collectors a, b, c returning
`[mA1, mA2]`, `[mB1]`, `[mC1, mC2, mC3]`. -/
def agentABC : AgentState TestCollector :=
  { collectors := [("a", okA), ("b", okB), ("c", okC)], isRunning := true,
    collectionInterval := some 100, config := cfg100 }

/-- A running agent where collector b's `stop` throws. -/
def agentFailStop : AgentState TestCollector :=
  { collectors := [("a", okA), ("b", stopFailB), ("c", okC)], isRunning := true,
    collectionInterval := some 100, config := cfg100 }

/-- An empty stream with capacity 3. -/
def streamCap3 : MetricsStream := { config := cfgCap3, buffer := [] }

/-- An empty stream with the default capacity 1000. -/
def stream1000 : MetricsStream := { config := cfg100, buffer := [] }

/-!
Theorems checking the specification's claims.
-/

/-- C1 (all-or-nothing start): for every Agent with any number of
registered collectors, if some collector's `start()` fails during
`Agent.start()`, then afterwards the running flag is false, no collection
timer is armed, the call throws, and a timer tick on the resulting state
fires no collection cycle. -/
theorem agent_start_all_or_nothing {C : Type} (ops : CollectorOps C)
    (a : AgentState C) (e : Err)
    (hrun : a.isRunning = false) (htimer : a.collectionInterval = none)
    (hfail : (startCollectors ops a.collectors).2 = some e) :
    (agentStart ops a).1.isRunning = false ∧
    (agentStart ops a).1.collectionInterval = none ∧
    (agentStart ops a).2 = some { message := "Start failed" } ∧
    agentTick ops (agentStart ops a).1 = ((agentStart ops a).1, []) := by
  have hstate : agentStart ops a =
      ({ a with collectors := (startCollectors ops a.collectors).1, isRunning := false },
       some { message := "Start failed" }) := by
    simp [agentStart, hrun, hfail]
  rw [hstate]
  exact ⟨rfl, htimer, rfl, by simp [agentTick, htimer]⟩

/-- Witness for C1: a fresh agent holding one collector whose `start`
throws `boom`. -/
theorem agent_start_all_or_nothing_witness :
    (agentStart testOps agentFailStart).1.isRunning = false ∧
    (agentStart testOps agentFailStart).1.collectionInterval = none ∧
    (agentStart testOps agentFailStart).2 = some { message := "Start failed" } ∧
    agentTick testOps (agentStart testOps agentFailStart).1 =
      ((agentStart testOps agentFailStart).1, []) :=
  agent_start_all_or_nothing testOps agentFailStart { message := "boom" } rfl rfl rfl

/-- C6 counterexample: with one registered collector whose `start` throws
an error with message `boom`, `Agent.start()` raises an error with
message `Start failed`, not the triggering collector's error. -/
theorem agent_start_error_replaced :
    (startCollectors testOps agentFailStart.collectors).2 = some { message := "boom" } ∧
    (agentStart testOps agentFailStart).2 = some { message := "Start failed" } ∧
    (agentStart testOps agentFailStart).2 ≠ some { message := "boom" } := by
  refine ⟨rfl, rfl, ?_⟩
  decide

/-- C6 amended: when some collector's `start()` fails during
`Agent.start()`, the error raised to the caller is a fresh error with
message `Start failed`; the triggering collector error is discarded
(the conclusion does not depend on `e`). It is still raised to the
caller, not emitted as an event — `agentStart` emits no events at all. -/
theorem agent_start_raises_fresh_error {C : Type} (ops : CollectorOps C)
    (a : AgentState C) (e : Err)
    (hrun : a.isRunning = false)
    (hfail : (startCollectors ops a.collectors).2 = some e) :
    (agentStart ops a).2 = some { message := "Start failed" } := by
  simp [agentStart, hrun, hfail]

/-- Witness for the amended C6 at the concrete failing agent. -/
theorem agent_start_raises_fresh_error_witness :
    (agentStart testOps agentFailStart).2 = some { message := "Start failed" } :=
  agent_start_raises_fresh_error testOps agentFailStart { message := "boom" } rfl rfl

/-- C2 (cycle failure isolation): when some collector's `collect()` fails
during a cycle, the cycle publishes no `metrics` event and exactly one
`error` event carrying the triggering error; the running flag and the
timer are untouched, the collectors are only affected by their own
`collect` calls (`collectCollectors` invokes nothing but `ops.collect`),
and while the timer is armed the next tick runs the next cycle. -/
theorem agent_collect_failure_isolation {C : Type} (ops : CollectorOps C)
    (a : AgentState C) (e : Err)
    (hfail : (collectCollectors ops a.collectors).1 = .error e) :
    agentCollect ops a =
      ({ a with collectors := (collectCollectors ops a.collectors).2 },
       [AgentEvent.error e]) ∧
    (agentCollect ops a).1.isRunning = a.isRunning ∧
    (agentCollect ops a).1.collectionInterval = a.collectionInterval ∧
    (a.collectionInterval.isSome = true →
      agentTick ops (agentCollect ops a).1 = agentCollect ops (agentCollect ops a).1) := by
  have hmain : agentCollect ops a =
      ({ a with collectors := (collectCollectors ops a.collectors).2 },
       [AgentEvent.error e]) := by
    simp [agentCollect, hfail]
  refine ⟨hmain, by rw [hmain], by rw [hmain], ?_⟩
  intro hsome
  rw [hmain]
  rcases h2 : a.collectionInterval with _ | iv
  · rw [h2] at hsome
    simp at hsome
  · simp [agentTick, h2]

/-- Witness for C2: a running agent whose middle collector's `collect`
throws `Collection failed`. -/
theorem agent_collect_failure_isolation_witness :
    agentCollect testOps agentFailCycle =
      ({ agentFailCycle with
          collectors := (collectCollectors testOps agentFailCycle.collectors).2 },
       [AgentEvent.error { message := "Collection failed" }]) ∧
    (agentCollect testOps agentFailCycle).1.isRunning = true ∧
    agentTick testOps (agentCollect testOps agentFailCycle).1 =
      agentCollect testOps (agentCollect testOps agentFailCycle).1 := by
  have h := agent_collect_failure_isolation testOps agentFailCycle
    { message := "Collection failed" } rfl
  exact ⟨h.1, by rw [h.2.1]; rfl, h.2.2.2 rfl⟩

/-- The collect loop returns the concatenation, in registration order, of
the collectors' results when every `collect` succeeds. -/
theorem collectCollectors_ok {C : Type} (ops : CollectorOps C)
    (out : String × C → List Metric) (cs : List (String × C))
    (h : ∀ p ∈ cs, (ops.collect p.2).1 = .ok (out p)) :
    (collectCollectors ops cs).1 = .ok ((cs.map out).flatten) := by
  induction cs with
  | nil => simp [collectCollectors]
  | cons p rest ih =>
    obtain ⟨n, c⟩ := p
    have hc := h (n, c) (List.mem_cons_self _ _)
    have hrest := ih (fun q hq => h q (List.mem_cons_of_mem _ hq))
    rcases hcol : ops.collect c with ⟨r, c2⟩
    rw [hcol] at hc
    rcases hrec : collectCollectors ops rest with ⟨r2, rest2⟩
    rw [hrec] at hrest
    simp only at hc hrest
    subst hc hrest
    simp [collectCollectors, hcol, hrec]

/-- C3 (batch ordering and empty-batch observability): when every
collector's `collect` succeeds, the cycle publishes exactly one `metrics`
event whose batch is the concatenation, in registration order, of each
collector's result with per-collector order preserved; with no collectors
the hypothesis is vacuous and the published batch is `[]`. -/
theorem agent_collect_batch_ordering {C : Type} (ops : CollectorOps C)
    (a : AgentState C) (out : String × C → List Metric)
    (h : ∀ p ∈ a.collectors, (ops.collect p.2).1 = .ok (out p)) :
    (agentCollect ops a).2 = [AgentEvent.metrics ((a.collectors.map out).flatten)] := by
  have hk := collectCollectors_ok ops out a.collectors h
  simp [agentCollect, hk]

/-- Witness for C3: collectors a, b, c returning `[a1, a2]`, `[b1]`,
`[c1, c2, c3]` yield the single batch `[a1, a2, b1, c1, c2, c3]`; and an
agent with no collectors still publishes the empty batch. -/
theorem agent_collect_batch_ordering_witness :
    (agentCollect testOps agentABC).2 =
      [AgentEvent.metrics [mA1, mA2, mB1, mC1, mC2, mC3]] ∧
    (agentCollect testOps { agentABC with collectors := [] }).2 =
      [AgentEvent.metrics []] := by
  constructor
  · have h := agent_collect_batch_ordering testOps agentABC (fun p => p.2.output) ?_
    · exact h.trans (by decide)
    · intro p hp
      fin_cases hp <;> rfl
  · have h := agent_collect_batch_ordering testOps { agentABC with collectors := [] }
      (fun p => p.2.output) (by intro p hp; simp at hp)
    exact h.trans (by decide)

/-- C8 (lifecycle idempotence): `Agent.start` while already running is a
complete no-op; after a `start` that completed without error a second
`start` is a no-op, and likewise for `stop`; and for each provided
collector (EventLoop, Memory, Cpu, all embedded from source) `start`
while active and `stop` while inactive leave the collector state
unchanged. -/
theorem lifecycle_idempotent {C : Type} (ops : CollectorOps C) (a : AgentState C)
    (now : Nat) (usage : Int) (ts : Nat)
    (el : EventLoopCollector) (mc : MemoryCollector) (pc : CpuCollector) :
    (a.isRunning = true → agentStart ops a = (a, none)) ∧
    ((agentStart ops a).2 = none →
      agentStart ops (agentStart ops a).1 = ((agentStart ops a).1, none)) ∧
    ((agentStop ops a).2 = none →
      agentStop ops (agentStop ops a).1 = ((agentStop ops a).1, none)) ∧
    (el.isRunning = true → elcStart now el = el) ∧
    (el.isRunning = false → elcStop el = el) ∧
    (mc.isRunning = true → mcStart mc = mc) ∧
    (mc.isRunning = false → mcStop mc = mc) ∧
    (pc.isRunning = true → cpuStart usage ts pc = pc) ∧
    (pc.isRunning = false → cpuStop pc = pc) := by
  refine ⟨?_, ?_, ?_, ?_, ?_, ?_, ?_, ?_, ?_⟩
  · intro h
    simp [agentStart, h]
  · intro h
    cases hr : a.isRunning with
    | true => simp [agentStart, hr]
    | false =>
      cases hs : (startCollectors ops a.collectors).2 with
      | none => simp [agentStart, hr, hs]
      | some e =>
        rw [show agentStart ops a =
            ({ a with collectors := (startCollectors ops a.collectors).1, isRunning := false },
             some { message := "Start failed" }) by simp [agentStart, hr, hs]] at h
        simp at h
  · intro h
    cases hr : a.isRunning with
    | false => simp [agentStop, hr]
    | true =>
      cases hs : (stopCollectors ops a.collectors).2 with
      | none => simp [agentStop, hr, hs]
      | some e =>
        rw [show agentStop ops a =
            ({ a with collectors := (stopCollectors ops a.collectors).1,
                      collectionInterval := none },
             some { message := "Stop failed" }) by simp [agentStop, hr, hs]] at h
        simp at h
  · intro h
    simp [elcStart, h]
  · intro h
    simp [elcStop, h]
  · intro h
    simp [mcStart, h]
  · intro h
    simp [mcStop, h]
  · intro h
    simp [cpuStart, h]
  · intro h
    simp [cpuStop, h]

/-- A fresh, startable agent with healthy collectors. -/
def agentFresh : AgentState TestCollector :=
  { agentABC with isRunning := false, collectionInterval := none }

/-- A running EventLoop collector. -/
def elRun : EventLoopCollector := { isRunning := true, lastLoopTime := 0, checkInterval := true }

/-- An inactive EventLoop collector. -/
def elIdle : EventLoopCollector := { isRunning := false, lastLoopTime := 0, checkInterval := false }

/-- A running Memory collector. -/
def mcRun : MemoryCollector := { isRunning := true, snapshots := [1, 2] }

/-- An inactive Memory collector. -/
def mcIdle : MemoryCollector := { isRunning := false, snapshots := [] }

/-- A running Cpu collector. -/
def pcRun : CpuCollector := { isRunning := true, lastUsage := some 1, lastTimestamp := some 2 }

/-- An inactive Cpu collector. -/
def pcIdle : CpuCollector := { isRunning := false, lastUsage := none, lastTimestamp := none }

/-- Witness for C8 at concrete running and idle states. -/
theorem lifecycle_idempotent_witness :
    agentStart testOps agentABC = (agentABC, none) ∧
    agentStart testOps (agentStart testOps agentFresh).1 =
      ((agentStart testOps agentFresh).1, none) ∧
    agentStop testOps (agentStop testOps agentABC).1 =
      ((agentStop testOps agentABC).1, none) ∧
    elcStart 5 elRun = elRun ∧ elcStop elIdle = elIdle ∧
    mcStart mcRun = mcRun ∧ mcStop mcIdle = mcIdle ∧
    cpuStart 7 9 pcRun = pcRun ∧ cpuStop pcIdle = pcIdle := by
  have hA := lifecycle_idempotent testOps agentABC 5 7 9 elRun mcRun pcRun
  have hB := lifecycle_idempotent testOps agentFresh 5 7 9 elIdle mcIdle pcIdle
  exact ⟨hA.1 rfl, hB.2.1 rfl, hA.2.2.1 rfl, hA.2.2.2.1 rfl, hB.2.2.2.2.1 rfl,
    hA.2.2.2.2.2.1 rfl, hB.2.2.2.2.2.2.1 rfl, hA.2.2.2.2.2.2.2.1 rfl,
    hB.2.2.2.2.2.2.2.2 rfl⟩

/-- The stop loop on a registry that splits as successful prefix,
failing collector, arbitrary suffix: the prefix is stopped, the failing
collector keeps its post-throw state, the suffix is never touched, and
the loop reports the triggering error. -/
theorem stopCollectors_fail {C : Type} (ops : CollectorOps C) (e : Err)
    (pre : List (String × C)) (n : String) (c : C) (post : List (String × C))
    (hpre : ∀ p ∈ pre, (ops.stop p.2).1 = none) (hfail : (ops.stop c).1 = some e) :
    stopCollectors ops (pre ++ (n, c) :: post) =
      ((pre.map fun p => (p.1, (ops.stop p.2).2)) ++ (n, (ops.stop c).2) :: post, some e) := by
  induction pre with
  | nil =>
    rcases hs : ops.stop c with ⟨r, c2⟩
    rw [hs] at hfail
    simp only at hfail
    subst hfail
    simp [stopCollectors, hs]
  | cons p rest ih =>
    obtain ⟨pn, pc⟩ := p
    have hp := hpre (pn, pc) (List.mem_cons_self _ _)
    rcases hs : ops.stop pc with ⟨r, c2⟩
    rw [hs] at hp
    simp only at hp
    subst hp
    simp [stopCollectors, hs, ih (fun q hq => hpre q (List.mem_cons_of_mem _ hq))]

/-- A running agent never answers `stop()` with a silent no-op: either
it completes (flipping the running flag) or it throws. -/
theorem agentStop_not_silent {C : Type} (ops : CollectorOps C) (b : AgentState C)
    (hb : b.isRunning = true) : agentStop ops b ≠ (b, none) := by
  intro heq
  cases hs : (stopCollectors ops b.collectors).2 with
  | none =>
    rw [show agentStop ops b =
        ({ b with collectors := (stopCollectors ops b.collectors).1, isRunning := false,
                  collectionInterval := none }, none) by simp [agentStop, hb, hs]] at heq
    have := congrArg (fun x => x.1.isRunning) heq
    simp only at this
    rw [hb] at this
    simp at this
  | some e =>
    rw [show agentStop ops b =
        ({ b with collectors := (stopCollectors ops b.collectors).1,
                  collectionInterval := none }, some { message := "Stop failed" })
      by simp [agentStop, hb, hs]] at heq
    have := congrArg (fun x => x.2) heq
    simp at this

/-- C9 (stop is not atomic on failure): on a running agent, if some
collector's `stop()` throws after a prefix of collectors stopped cleanly,
then the timer has already been cancelled, the collectors after the
failing one are never asked to stop, `Agent.stop()` raises a fresh
`Stop failed` error (the triggering error `e` does not appear in the
result), the running flag stays true, and a later `stop()` call is not a
silent no-op — it runs the stop loop again. -/
theorem agent_stop_not_atomic {C : Type} (ops : CollectorOps C) (a : AgentState C)
    (pre post : List (String × C)) (n : String) (c : C) (e : Err)
    (hrun : a.isRunning = true)
    (hsplit : a.collectors = pre ++ (n, c) :: post)
    (hpre : ∀ p ∈ pre, (ops.stop p.2).1 = none)
    (hfail : (ops.stop c).1 = some e) :
    agentStop ops a =
      ({ a with
          collectors := (pre.map fun p => (p.1, (ops.stop p.2).2)) ++ (n, (ops.stop c).2) :: post,
          collectionInterval := none },
       some { message := "Stop failed" }) ∧
    (agentStop ops a).1.isRunning = true ∧
    agentStop ops (agentStop ops a).1 ≠ ((agentStop ops a).1, none) := by
  have hloop := stopCollectors_fail ops e pre n c post hpre hfail
  have hmain : agentStop ops a =
      ({ a with
          collectors := (pre.map fun p => (p.1, (ops.stop p.2).2)) ++ (n, (ops.stop c).2) :: post,
          collectionInterval := none },
       some { message := "Stop failed" }) := by
    simp [agentStop, hrun, hsplit, hloop]
  have hrun2 : (agentStop ops a).1.isRunning = true := by
    rw [hmain]
    exact hrun
  exact ⟨hmain, hrun2, agentStop_not_silent ops (agentStop ops a).1 hrun2⟩

/-- Witness for C9: a running agent where collector b's `stop` throws
`stop boom` between healthy collectors a and c. -/
theorem agent_stop_not_atomic_witness :
    agentStop testOps agentFailStop =
      ({ agentFailStop with
          collectors := [("a", (testOps.stop okA).2), ("b", (testOps.stop stopFailB).2),
                         ("c", okC)],
          collectionInterval := none },
       some { message := "Stop failed" }) ∧
    (agentStop testOps agentFailStop).1.isRunning = true ∧
    agentStop testOps (agentStop testOps agentFailStop).1 ≠
      ((agentStop testOps agentFailStop).1, none) := by
  have h := agent_stop_not_atomic testOps agentFailStop [("a", okA)] [("c", okC)] "b"
    stopFailB { message := "stop boom" } rfl rfl (by intro p hp; fin_cases hp; rfl) rfl
  exact ⟨h.1.trans (by decide), h.2.1, h.2.2⟩

/-- Override only the `enabled` field of an agent's stored config. -/
def setEnabled {C : Type} (a : AgentState C) (b : Bool) : AgentState C :=
  { a with config := { a.config with enabled := b } }

/-- C10 (the `enabled` configuration flag is ignored): every Agent
operation — start, stop, the collection cycle, a timer tick, collector
registration — behaves identically on two states differing only in
`config.enabled`, and `Config` construction validates identically for any
`enabled` value; in particular a start on a disabled config still starts
all collectors and arms the timer exactly as on an enabled one. -/
theorem enabled_flag_ignored {C : Type} (ops : CollectorOps C) (a : AgentState C)
    (b : Bool) (name : String) (c : C) (sc : SparkConfig) (bb : Bool) :
    agentStart ops (setEnabled a b) =
      (setEnabled (agentStart ops a).1 b, (agentStart ops a).2) ∧
    agentStop ops (setEnabled a b) =
      (setEnabled (agentStop ops a).1 b, (agentStop ops a).2) ∧
    agentCollect ops (setEnabled a b) =
      (setEnabled (agentCollect ops a).1 b, (agentCollect ops a).2) ∧
    agentTick ops (setEnabled a b) =
      (setEnabled (agentTick ops a).1 b, (agentTick ops a).2) ∧
    registerCollector (setEnabled a b) name c =
      (registerCollector a name c).map (fun x => setEnabled x b) ∧
    Config.make { sc with enabled := some bb } =
      (Config.make sc).map (fun cf => { cf with enabled := bb }) := by
  refine ⟨?_, ?_, ?_, ?_, ?_, ?_⟩
  · cases hr : a.isRunning with
    | true => simp [agentStart, setEnabled, hr]
    | false =>
      cases hs : (startCollectors ops a.collectors).2 with
      | none => simp [agentStart, setEnabled, hr, hs]
      | some e => simp [agentStart, setEnabled, hr, hs]
  · cases hr : a.isRunning with
    | false => simp [agentStop, setEnabled, hr]
    | true =>
      cases hs : (stopCollectors ops a.collectors).2 with
      | none => simp [agentStop, setEnabled, hr, hs]
      | some e => simp [agentStop, setEnabled, hr, hs]
  · cases hs : (collectCollectors ops a.collectors).1 with
    | ok ms => simp [agentCollect, setEnabled, hs]
    | error e => simp [agentCollect, setEnabled, hs]
  · cases ht : a.collectionInterval with
    | none => simp [agentTick, setEnabled, ht]
    | some iv =>
      cases hs : (collectCollectors ops a.collectors).1 with
      | ok ms => simp [agentTick, agentCollect, setEnabled, ht, hs]
      | error e => simp [agentTick, agentCollect, setEnabled, ht, hs]
  · have hcoll : (setEnabled a b).collectors = a.collectors := rfl
    unfold registerCollector
    rw [hcoll]
    by_cases hn : (a.collectors.map Prod.fst).contains name = true
    · rw [if_pos hn, if_pos hn]
      rfl
    · rw [if_neg hn, if_neg hn]
      rfl
  · have h1 : Config.ofSpark { sc with enabled := some bb } =
        { Config.ofSpark sc with enabled := bb } := rfl
    have h2 : ({ Config.ofSpark sc with enabled := bb } : Config).validateConfig =
        (Config.ofSpark sc).validateConfig := rfl
    unfold Config.make
    rw [h1, h2]
    cases hv : (Config.ofSpark sc).validateConfig <;> simp [Except.map]

/-- Characterization of one `push` call under a positive capacity:
either the appended buffer reached capacity — then the call empties the
buffer and emits it as one `data` event — or it did not, and nothing is
emitted. -/
theorem msPush_eq (s : MetricsStream) (ms : List Metric)
    (hcap : 0 < s.config.metricsBufferSize) :
    msPush s ms =
      if s.config.metricsBufferSize ≤ ((s.buffer ++ ms).length : Int) then
        ({ s with buffer := [] }, [s.buffer ++ ms])
      else ({ s with buffer := s.buffer ++ ms }, []) := by
  by_cases hge : s.config.metricsBufferSize ≤ ((s.buffer ++ ms).length : Int)
  · have hpos : 0 < (s.buffer ++ ms).length := by
      exact_mod_cast lt_of_lt_of_le hcap hge
    simp only [msPush, msFlush, hge, hpos, ite_true]
  · simp only [msPush, msFlush, hge, ite_false]

/-- C4 (buffer capacity invariant with auto-flush): with positive
configured capacity, after any single `push` call returns the buffer is
strictly below capacity; a push whose appended buffer reaches or exceeds
capacity triggers exactly one synchronous flush, emitting one `data`
event with the whole buffer in push order, while a push that stays below
capacity emits nothing. The last conjunct is P5: with capacity 3, three
one-metric pushes emit no event after the first two and exactly one
`data` event with those 3 metrics, in push order, after the third. -/
theorem metrics_stream_capacity_invariant (s : MetricsStream) (ms : List Metric)
    (hcap : 0 < s.config.metricsBufferSize) :
    ((msPush s ms).1.buffer.length : Int) < s.config.metricsBufferSize ∧
    (s.config.metricsBufferSize ≤ ((s.buffer ++ ms).length : Int) →
      (msPush s ms).2 = [s.buffer ++ ms]) ∧
    (((s.buffer ++ ms).length : Int) < s.config.metricsBufferSize →
      (msPush s ms).2 = []) ∧
    ((msPush streamCap3 [mA1]).2 = [] ∧
     (msPush (msPush streamCap3 [mA1]).1 [mA2]).2 = [] ∧
     (msPush (msPush (msPush streamCap3 [mA1]).1 [mA2]).1 [mB1]).2 =
       [[mA1, mA2, mB1]]) := by
  have hpe := msPush_eq s ms hcap
  refine ⟨?_, ?_, ?_, by decide, by decide, by decide⟩
  · rw [hpe]
    by_cases hge : s.config.metricsBufferSize ≤ ((s.buffer ++ ms).length : Int)
    · rw [if_pos hge]
      simpa using hcap
    · rw [if_neg hge]
      simpa using not_le.mp hge
  · intro hge
    rw [hpe, if_pos hge]
  · intro hlt
    rw [hpe, if_neg (not_le.mpr hlt)]

/-- Witness for C4 at an empty default-capacity stream and one metric. -/
theorem metrics_stream_capacity_invariant_witness :
    ((msPush stream1000 [mA1]).1.buffer.length : Int) <
      stream1000.config.metricsBufferSize ∧
    (msPush stream1000 [mA1]).2 = [] := by
  have h := metrics_stream_capacity_invariant stream1000 [mA1] (by decide)
  exact ⟨h.1, h.2.2.1 (by decide)⟩

/-- C7 (flush versus clear): `flush()` on a non-empty buffer emits one
`data` event carrying the entire buffer in insertion order and empties
it; `flush()` on an empty buffer emits nothing; `clear()` empties the
buffer and, having no event output at all, emits nothing. The last two
conjuncts are P6: push one metric then `clear()` then `flush()` emits no
event, while push one metric then `flush()` emits one `data` event with
that metric. -/
theorem metrics_stream_flush_vs_clear (s : MetricsStream) (hne : s.buffer ≠ []) :
    msFlush s = ({ s with buffer := [] }, [s.buffer]) ∧
    (∀ t : MetricsStream, t.buffer = [] → msFlush t = (t, [])) ∧
    msClear s = { s with buffer := [] } ∧
    (msFlush (msClear (msPush stream1000 [mA1]).1)).2 = [] ∧
    (msFlush (msPush stream1000 [mA1]).1).2 = [[mA1]] := by
  refine ⟨?_, ?_, rfl, by decide, by decide⟩
  · simp [msFlush, List.length_pos.mpr hne]
  · intro t ht
    simp [msFlush, ht]

/-- Witness for C7 at a stream buffering one metric. -/
theorem metrics_stream_flush_vs_clear_witness :
    msFlush { stream1000 with buffer := [mA1] } =
      ({ { stream1000 with buffer := [mA1] } with buffer := [] }, [[mA1]]) ∧
    msClear { stream1000 with buffer := [mA1] } =
      { { stream1000 with buffer := [mA1] } with buffer := [] } := by
  have h := metrics_stream_flush_vs_clear { stream1000 with buffer := [mA1] } (by decide)
  exact ⟨h.1, h.2.2.1⟩

/-- A one-object heap: the caller's metric object at address 0 (not
frozen), whose metadata reference points to the metadata object at
address 0 holding `unit ↦ 1`. -/
def heap0 : Heap :=
  { objs := [({ name := "test.metric", value := 100, timestamp := 0, type := "memory",
                metaRef := some 0 }, false)],
    metas := [[("unit", 1)]] }

/-- An empty heap-level stream with capacity 1000. -/
def streamH0 : StreamH := { capacity := 1000, buffer := [] }

/-- C5 counterexample: the copy `push` buffers is shallow, not deep.
After `push([m])` and `flush()` the emitted event carries the copy at
address 1; mutating the original object's nested metadata
(`m.metadata.unit = 2`) after the flush changes the value observed
through the emitted copy, because the metadata object is shared by
reference between the original and the copy. -/
theorem metrics_stream_copy_not_deep :
    (flushH (pushH heap0 streamH0 [0]).2.1).2 = [[1]] ∧
    (pushH heap0 streamH0 [0]).1.view 1 =
      some { name := "test.metric", value := 100, timestamp := 0, type := "memory",
             metadata := some [("unit", 1)] } ∧
    ((pushH heap0 streamH0 [0]).1.setMeta 0 "unit" 2).view 1 =
      some { name := "test.metric", value := 100, timestamp := 0, type := "memory",
             metadata := some [("unit", 2)] } ∧
    ((pushH heap0 streamH0 [0]).1.setMeta 0 "unit" 2).view 1 ≠
      (pushH heap0 streamH0 [0]).1.view 1 := by
  refine ⟨rfl, rfl, rfl, ?_⟩
  decide

/-- A top-level field write at one address never changes the observed
value at a different address: `setValue` touches only the object at its
own address and leaves the metadata heap alone. -/
theorem view_setValue_ne (h : Heap) (a n : Nat) (v : Int) (hne : a ≠ n) :
    (h.setValue a v).view n = h.view n := by
  rcases hx : h.objs[a]? with _ | ⟨o, fr⟩
  · simp [Heap.setValue, hx]
  · cases fr with
    | true => simp [Heap.setValue, hx]
    | false =>
      have hsv : h.setValue a v =
          { h with objs := h.objs.set a ({ o with value := v }, false) } := by
        simp [Heap.setValue, hx]
      rw [hsv]
      dsimp only [Heap.view, Heap.getObj]
      rw [List.getElem?_set_ne hne]

/-- C5 amended: the copy `push` appends is a defensive shallow,
shallowly-frozen copy. After `push([m])` the buffered copy sits at the
fresh address `h.objs.length`, `flush()` emits exactly that copy, the
emitted copy is observable (its view is `some`), and mutating a
top-level field of the original object afterwards does not alter the
value observed through the emitted copy. (Nested metadata is shared by
reference with the copy, so mutating it does propagate — see the
counterexample.) -/
theorem metrics_stream_shallow_copy_isolation (h : Heap) (s : StreamH) (a : Nat) (v : Int)
    (ha : a < h.objs.length) (hcap : 1 < s.capacity) (hbuf : s.buffer = []) :
    (flushH (pushH h s [a]).2.1).2 = [[h.objs.length]] ∧
    ((pushH h s [a]).1.view h.objs.length).isSome = true ∧
    ((pushH h s [a]).1.setValue a v).view h.objs.length =
      (pushH h s [a]).1.view h.objs.length := by
  obtain ⟨x, hx⟩ : ∃ x, h.objs[a]? = some x :=
    ⟨h.objs.get ⟨a, ha⟩, by rw [List.getElem?_eq_getElem ha, List.get_eq_getElem]⟩
  have hfc : h.freezeCopy a =
      ({ h with objs := h.objs ++ [(x.1, true)] }, some h.objs.length) := by
    simp [Heap.freezeCopy, Heap.getObj, hx]
  have hall : freezeCopyAll h [a] =
      ({ h with objs := h.objs ++ [(x.1, true)] }, [h.objs.length]) := by
    simp [freezeCopyAll, hfc]
  have hnotcap : ¬ s.capacity ≤ (1 : Int) := not_le.mpr hcap
  have hpush : pushH h s [a] =
      ({ h with objs := h.objs ++ [(x.1, true)] },
       { s with buffer := [h.objs.length] }, []) := by
    simp [pushH, hall, hbuf, hnotcap]
  refine ⟨by rw [hpush]; simp [flushH], ?_, ?_⟩
  · rw [hpush]
    dsimp only [Heap.view, Heap.getObj]
    rw [List.getElem?_concat_length]
    rfl
  · rw [hpush]
    exact view_setValue_ne _ a h.objs.length v (Nat.ne_of_lt ha)

/-- Witness for the amended C5: the concrete one-object heap, mutating
the original's top-level `value` to 200 after the flush. -/
theorem metrics_stream_shallow_copy_isolation_witness :
    (flushH (pushH heap0 streamH0 [0]).2.1).2 = [[1]] ∧
    ((pushH heap0 streamH0 [0]).1.view 1).isSome = true ∧
    ((pushH heap0 streamH0 [0]).1.setValue 0 200).view 1 =
      (pushH heap0 streamH0 [0]).1.view 1 := by
  have h := metrics_stream_shallow_copy_isolation heap0 streamH0 0 200
    (by decide) (by decide) rfl
  exact h

end NovaSpark
